import Mathlib

/-!
Verification development for the QA dashboard's data pipeline
(`src/Quality.py`): schema projection, type normalization, filtering,
aggregation and missing-data classification.

Modelling conventions:
* A raw CSV cell is either an empty cell (`Cell.na`, pandas NaN) or a
  textual value (`Cell.str`).  Numeric coercion produces `Cell.num`,
  whose rational payload is the exact value of the float64 the program
  holds (every binary64 number is a rational); date coercion produces
  `Cell.date day tod` (calendar-day ordinal plus time of day) or the
  absent sentinel `Cell.na` (pandas NaT).  Arithmetic on cells is exact
  rational arithmetic; where the program's float64 rounding matters
  (the aggregated sums), the binary64 rounding model `fl` below is
  applied on top (`f64add`, `f64sub`, `f64sumList`,
  `Qa_stats_groups_f64`).
* A row is an association list from column name to cell; a table is a
  header (list of column names) plus a list of rows.  Reading a column
  that is not in a table raises `PdError.keyError`, as pandas does;
  reading a key absent from an individual row yields `Cell.na`, as
  `read_csv` fills short rows with NaN.
* The external parsers wrapped by `pd.to_numeric` / `pd.to_datetime`
  are passed in as an explicit `Parsers` record; the pipeline is
  quantified over them.
-/

namespace Quality

inductive Cell where
  | na : Cell
  | str : String → Cell
  | num : ℚ → Cell
  | date : Int → ℚ → Cell
deriving DecidableEq, Repr

abbrev Row := List (String × Cell)

def Row.get (r : Row) (c : String) : Cell :=
  (List.lookup c r).getD Cell.na

def Row.modify (r : Row) (c : String) (f : Cell → Cell) : Row :=
  r.map (fun p => if p.1 = c then (p.1, f p.2) else p)

structure Table where
  header : List String
  rows : List Row
deriving DecidableEq, Repr

inductive PdError where
  | keyError : String → PdError
deriving DecidableEq, Repr

structure Parsers where
  parseNum : String → Option ℚ
  parseDate : String → Option (Int × ℚ)

/-- The recognized schema, source lines 11-22 (`COLUMNS_TO_KEEP`). -/
def COLUMNS_TO_KEEP : List String := [
  "Assigned To", "First Name", "Last Name", "Products", "Date of Birth",
  "Pain Level", "MCN", "Team Leader", "Insurance", "Address", "Site",
  "City", "Opener Status", "State.", "Client", "ZIP Code", "Campaign",
  "Last Modified By", "Dialer", "Created Time", "Modified Time",
  "Closer Name", "Type Of Sale", "Closing Status", "Products Closed For",
  "Date of Sale", "Call duration", "Approval Date", "Dr Name",
  "Phone Number", "Fax Number", "City.", "Address.", "Postal Code.",
  "State..", "NPI Number", "Telemed Status", "Work duration",
  "Quality Agent Name", "Validation", "Recording link", "Finish Date",
  "Assign Date", "QA Feedback"]

/-- Schema projection, source line 27:
`df_raw[[col for col in COLUMNS_TO_KEEP if col in df_raw.columns]]`. -/
def projectColumns (t : Table) : Table :=
  { header := COLUMNS_TO_KEEP.filter (fun c => t.header.contains c)
    rows := t.rows.map (fun r =>
      (COLUMNS_TO_KEEP.filter (fun c => t.header.contains c)).map
        (fun c => (c, r.get c))) }

/-- Read-transform-write of one column, the shape of source lines 29-30
and 37: `df[c] = f(df[c])`.  Reading a column absent from the frame
raises a KeyError. -/
def Table.mapCol (t : Table) (c : String) (f : Cell → Cell) :
    Except PdError Table :=
  if t.header.contains c then
    .ok { header := t.header, rows := t.rows.map (fun r => r.modify c f) }
  else .error (.keyError c)

/-- Numeric coercion of one cell, source lines 29-30:
`pd.to_numeric(·, errors='coerce').fillna(0)`.  Strings that fail to
parse and empty (NaN) cells both end at `0`. -/
def coerceNum (P : Parsers) (c : Cell) : Cell :=
  match c with
  | .str s => .num ((P.parseNum s).getD 0)
  | .num q => .num q
  | _ => .num 0

/-- Elementwise subtraction of two numeric series cells (source line 32). -/
def cellSub : Cell → Cell → Cell
  | .num a, .num b => .num (a - b)
  | _, _ => .na

/-- Source line 32: `df_cleaned["Duration Difference"] =
df_cleaned["Call duration"] - df_cleaned["Work duration"]`.  Both reads
are header-checked; the derived column is new (it is not part of
`COLUMNS_TO_KEEP`, so the projected frame cannot already contain it)
and is appended to the schema. -/
def setGapCol (t : Table) : Except PdError Table :=
  if t.header.contains "Call duration" then
    if t.header.contains "Work duration" then
      .ok { header := t.header ++ ["Duration Difference"]
            rows := t.rows.map (fun r =>
              r ++ [("Duration Difference",
                     cellSub (r.get "Call duration") (r.get "Work duration"))]) }
    else .error (.keyError "Work duration")
  else .error (.keyError "Call duration")

/-- Date coercion of one cell, source line 37:
`pd.to_datetime(·, dayfirst=True, errors='coerce')`; unparsable or
empty values become the absent sentinel (NaT). -/
def coerceDate (P : Parsers) (c : Cell) : Cell :=
  match c with
  | .str s =>
    match P.parseDate s with
    | some dt => .date dt.1 dt.2
    | none => .na
  | _ => .na

/-- Source line 34. -/
def date_cols : List String :=
  ["Created Time", "Modified Time", "Date of Sale", "Finish Date", "Assign Date"]

/-- One iteration of the loop at source lines 35-37: the date column is
coerced only if present (`if col in df_cleaned.columns`). -/
def dateStep (P : Parsers) (t : Table) (c : String) : Table :=
  if t.header.contains c then
    { header := t.header, rows := t.rows.map (fun r => r.modify c (coerceDate P)) }
  else t

/-- The loop at source lines 35-37 over all recognized date columns. -/
def coerceDateCols (P : Parsers) (t : Table) : Table :=
  date_cols.foldl (dateStep P) t

/-- Source lines 25-39 (`load_and_process_data`): project to the
recognized schema, coerce the two duration columns (KeyError when one
is absent), derive the gap column, then coerce the date columns that
are present.  Returns the pair `(df_raw, df_cleaned)`. -/
def load_and_process_data (P : Parsers) (df_raw : Table) :
    Except PdError (Table × Table) :=
  match (projectColumns df_raw).mapCol "Call duration" (coerceNum P) with
  | .error e => .error e
  | .ok t1 =>
    match t1.mapCol "Work duration" (coerceNum P) with
    | .error e => .error e
    | .ok t2 =>
      match setGapCol t2 with
      | .error e => .error e
      | .ok t3 => .ok (df_raw, coerceDateCols P t3)

/-- The cleaned table of a successful pipeline run (`df_processed`),
with an empty-table default when the pipeline raised. -/
def cleanedOf (P : Parsers) (raw : Table) : Table :=
  match load_and_process_data P raw with
  | .ok p => p.2
  | .error _ => { header := [], rows := [] }

def isNullCell : Cell → Bool
  | .na => true
  | _ => false

/-- Source line 48: `df_processed.dropna(subset=["Quality Agent Name"])`
(the agent-scoped view `df_agents_full`). -/
def agentRows (t : Table) : List Row :=
  t.rows.filter (fun r => !isNullCell (r.get "Quality Agent Name"))

/-- Source line 90: `df_agents_full["Quality Agent Name"].isin(selected_agents)`. -/
def agentIsin (r : Row) (sel : List String) : Bool :=
  match r.get "Quality Agent Name" with
  | .str s => sel.contains s
  | _ => false

/-- Source line 92, left comparison: `df["Date of Sale"].dt.date >= date_range[0]`.
`dt.date` keeps the calendar day and drops the time of day; a missing
date (NaT) compares as `False`. -/
def dtGe (c : Cell) (d : Int) : Bool :=
  match c with
  | .date day _ => decide (d ≤ day)
  | _ => false

/-- Source line 92, right comparison: `df["Date of Sale"].dt.date <= date_range[1]`. -/
def dtLe (c : Cell) (d : Int) : Bool :=
  match c with
  | .date day _ => decide (day ≤ d)
  | _ => false

/-- Source lines 90-92: the combined row mask.  The two date
comparisons are conjoined only when a full date range is active
(`len(date_range) == 2`). -/
def rowMask (sel : List String) (dr : Option (Int × Int)) (r : Row) : Bool :=
  match dr with
  | some d =>
    agentIsin r sel && dtGe (r.get "Date of Sale") d.1 && dtLe (r.get "Date of Sale") d.2
  | none => agentIsin r sel

/-- Source line 94: `df_filtered = df_agents_full[mask]`. -/
def applyFilters (rows : List Row) (sel : List String) (dr : Option (Int × Int)) :
    List Row :=
  rows.filter (rowMask sel dr)

/-- Numeric value of a coerced cell, as used by pandas `sum` / `mean`
over a numeric column. -/
def cellQ : Cell → ℚ
  | .num q => q
  | _ => 0

/-- One aggregated row of `Qa_stats` (source lines 104-109). -/
structure AgentStats where
  agent : String
  total_call_duration : ℚ
  total_work_duration : ℚ
  total_efficiency_gap : ℚ
  total_agent_leads : ℕ
deriving DecidableEq, Repr

/-- Lexicographic comparison on character codes (code-point order, the
order pandas uses for string group keys). -/
def lexLe : List Char → List Char → Bool
  | [], _ => true
  | _ :: _, [] => false
  | a :: as, b :: bs =>
    if a.val < b.val then true
    else if b.val < a.val then false
    else lexLe as bs

def strLeB (a b : String) : Bool := lexLe a.data b.data

def insertSorted (s : String) : List String → List String
  | [] => [s]
  | x :: xs => if strLeB s x then s :: x :: xs else x :: insertSorted s xs

def sortStrings (l : List String) : List String := l.foldr insertSorted []

/-- The group keys of `groupby("Quality Agent Name")`: the distinct
string agent names, in ascending order (pandas `groupby` sorts keys). -/
def agentKeys (rows : List Row) : List String :=
  sortStrings ((rows.filterMap (fun r =>
    match r.get "Quality Agent Name" with
    | .str s => some s
    | _ => none)).dedup)

def groupRows (rows : List Row) (k : String) : List Row :=
  rows.filter (fun r => r.get "Quality Agent Name" == Cell.str k)

/-- Source lines 104-109: `df_filtered.groupby("Quality Agent Name").agg(...)`
with sum of the two durations, sum of the gap, and the group size
(`("Quality Agent Name", "count")` counts the non-null key cells, which
is the group size since a null key never forms a group).  The sums here
are exact rational sums — the idealized semantics; the program sums
float64 values, which `Qa_stats_groups_f64` below models with explicit
binary64 rounding. -/
def Qa_stats_groups (rows : List Row) : List AgentStats :=
  (agentKeys rows).map (fun k =>
    { agent := k
      total_call_duration :=
        ((groupRows rows k).map (fun r => cellQ (r.get "Call duration"))).sum
      total_work_duration :=
        ((groupRows rows k).map (fun r => cellQ (r.get "Work duration"))).sum
      total_efficiency_gap :=
        ((groupRows rows k).map (fun r => cellQ (r.get "Duration Difference"))).sum
      total_agent_leads := (groupRows rows k).length })

/-- Pairwise non-increasing duration-gap sums: the guarantee of source
line 111, `Qa_stats.sort_values(by="Total_Efficiency_Gap", ascending=False)`. -/
abbrev sortedByGapDesc (l : List AgentStats) : Prop :=
  List.Pairwise (fun a b => b.total_efficiency_gap ≤ a.total_efficiency_gap) l

/-- The possible values of `Qa_stats` after source line 111.  The sort
is `sort_values` with its default `kind='quicksort'`, which promises
only a reordering that is non-increasing in the sort key: any
permutation of the grouped rows that is sorted by descending gap sum is
an admissible result (the default quicksort is not a stable sort, so
the relative order of equal keys is not specified). -/
abbrev Qa_stats_result (rows : List Row) (out : List AgentStats) : Prop :=
  out.Perm (Qa_stats_groups rows) ∧ sortedByGapDesc out

/-- The deterministic tie-break demanded by the spec: among equal gap
sums, the lexically smaller agent name comes first. -/
abbrev tieBreakOK (l : List AgentStats) : Prop :=
  List.Pairwise (fun a b =>
    a.total_efficiency_gap = b.total_efficiency_gap → strLeB a.agent b.agent = true) l

/-- Source line 47. -/
def total_leads_in_sheet (df_raw : Table) : ℕ := df_raw.rows.length

/-- The global summary cards of source lines 47 and 116-119. -/
structure GlobalStats where
  total_leads : ℕ
  leads_in_selection : ℕ
  total_call_time : ℚ
  total_work_time : ℚ
  total_gap_sum : ℚ
deriving DecidableEq, Repr

/-- Source lines 47 and 116-119: `total_leads_in_sheet = len(df_raw)` is
computed from the raw table, the other totals from the filtered view. -/
def globalStats (df_raw : Table) (filtered : List Row) : GlobalStats :=
  { total_leads := total_leads_in_sheet df_raw
    leads_in_selection := filtered.length
    total_call_time := (filtered.map (fun r => cellQ (r.get "Call duration"))).sum
    total_work_time := (filtered.map (fun r => cellQ (r.get "Work duration"))).sum
    total_gap_sum := (filtered.map (fun r => cellQ (r.get "Duration Difference"))).sum }

/-- Source line 218: `df_global['Closing Status'].fillna('Unknown')`
applied to one cell. -/
def fillUnknown : Cell → Cell
  | .na => .str "Unknown"
  | c => c

/-- Source line 233 isin test on one (already filled) closing-status cell. -/
def closingIsin (c : Cell) (sel : List String) : Bool :=
  match c with
  | .str s => sel.contains s
  | _ => false

/-- Source lines 217-233: copy the full cleaned table (`df_processed`),
fill missing closing statuses with `"Unknown"` (KeyError when the
column is absent), then keep the rows whose closing status is in the
selected set (`df_closing_global`). -/
def df_closing_global (t : Table) (sel : List String) : Except PdError (List Row) :=
  match t.mapCol "Closing Status" fillUnknown with
  | .error e => .error e
  | .ok tg => .ok (tg.rows.filter (fun r => closingIsin (r.get "Closing Status") sel))

/-- The rows of `df_closing_global`, with an empty default when the
closing-status column is absent. -/
def closingRows (t : Table) (sel : List String) : List Row :=
  ((df_closing_global t sel).toOption).getD []

/-- Source line 242: `fillna('Not Assigned')` on one agent-name cell. -/
def fillNotAssigned : Cell → Cell
  | .na => .str "Not Assigned"
  | c => c

/-- Source lines 241-242 (`df_closing_global_plot`): a copy of the
closing-filtered rows whose missing agent names are relabelled
`'Not Assigned'` (the agent-name column is present in every run that
reaches this point, since line 48 already read it). -/
def plotRows (t : Table) (sel : List String) : List Row :=
  (closingRows t sel).map (fun r => r.modify "Quality Agent Name" fillNotAssigned)

/-- Source line 274. -/
def REQUIRED_FIELDS : List String :=
  ["Assign Date", "Finish Date", "Recording link", "Validation"]

/-- Source line 277: `df_filtered[REQUIRED_FIELDS].isnull().any(axis=1)`
on one row — only the null test (the absent sentinel) decides
membership in the problem set. -/
def missing_mask (r : Row) : Bool :=
  REQUIRED_FIELDS.any (fun f => isNullCell (r.get f))

/-- Source line 278: `df_all_problems = df_filtered[missing_mask]`. -/
def df_all_problems (rows : List Row) : List Row :=
  rows.filter missing_mask

/-- The per-field test of `get_missing_columns` (source line 283):
`pd.isnull(row[field]) or str(row[field]).strip() == ""`.  The null
test catches the absent sentinel; the stripped-string test can hold
only for a string cell that is empty or whitespace-only, since the
string rendering of a number or of a timestamp is never whitespace. -/
def fieldMissingB (c : Cell) : Bool :=
  match c with
  | .na => true
  | .str s => s.data.all Char.isWhitespace
  | _ => false

/-- Source lines 282-284 (`get_missing_columns`): the comma-joined list
of required fields missing from a row, in `REQUIRED_FIELDS` order. -/
def get_missing_columns (r : Row) : String :=
  String.intercalate ", " (REQUIRED_FIELDS.filter (fun f => fieldMissingB (r.get f)))

/-- A concrete instantiation of the external parsers, enough for the
sample sheets below: a handful of numeric literals parse, everything
else fails to parse. -/
def testParsers : Parsers :=
  { parseNum := fun s =>
      match s with
      | "10" => some 10
      | "8" => some 8
      | "7" => some 7
      | "5" => some 5
      | _ => none
    parseDate := fun s =>
      match s with
      | "01/02/2024" => some (100, 0)
      | _ => none }

/-- A parseable raw sheet that simply lacks the two duration columns. -/
def rawNoDurations : Table :=
  { header := ["First Name"], rows := [[("First Name", Cell.str "x")]] }

/-- A raw sheet with only the two duration columns. -/
def rawDurationsOnly : Table :=
  { header := ["Call duration", "Work duration"],
    rows := [[("Call duration", Cell.str "10"), ("Work duration", Cell.str "7")]] }

/-- A raw sheet with an agent and parseable durations. -/
def rawQa : Table :=
  { header := ["Quality Agent Name", "Call duration", "Work duration"],
    rows := [[("Quality Agent Name", Cell.str "Agent A"),
              ("Call duration", Cell.str "10"),
              ("Work duration", Cell.str "7")]] }

/-- A raw sheet whose single lead was never assigned to a QA agent (the
agent cell is empty, i.e. NaN after `read_csv`) but has a closing
status. -/
def rawClosing : Table :=
  { header := ["Call duration", "Work duration", "Quality Agent Name", "Closing Status"],
    rows := [[("Call duration", Cell.str "10"), ("Work duration", Cell.str "7"),
              ("Closing Status", Cell.str "Confirmed")]] }

/-- The cleaned table of `rawClosing`. -/
def cleanedClosing : Table := cleanedOf testParsers rawClosing

/-- A cleaned-shape row for the aggregation examples. -/
def sampleRow (agent : String) (call work : ℚ) : Row :=
  [("Quality Agent Name", Cell.str agent), ("Call duration", Cell.num call),
   ("Work duration", Cell.num work), ("Duration Difference", Cell.num (call - work))]

/-- Two agents with equal duration-gap sums (3 each). -/
def tieRows : List Row := [sampleRow "A" 10 7, sampleRow "B" 8 5]

/-- Aggregated statistics of `tieRows` listed with agent B first: one of
the orders the unstable descending sort may produce. -/
def tieStatsBad : List AgentStats :=
  [{ agent := "B", total_call_duration := 8, total_work_duration := 5,
     total_efficiency_gap := 3, total_agent_leads := 1 },
   { agent := "A", total_call_duration := 10, total_work_duration := 7,
     total_efficiency_gap := 3, total_agent_leads := 1 }]

/-- The grouped statistics of `tieRows` in group-key order. -/
def tieStatsGood : List AgentStats := Qa_stats_groups tieRows

/-- A filtered-view row whose recording link is whitespace-only and
whose other required fields are all present. -/
def blankLinkRow : Row :=
  [("Assign Date", Cell.date 100 0), ("Finish Date", Cell.date 101 0),
   ("Recording link", Cell.str " "), ("Validation", Cell.str "Smooth")]

/-- A filtered-view row with a genuinely null required field. -/
def nullDateRow : Row :=
  [("Assign Date", Cell.na), ("Finish Date", Cell.date 101 0),
   ("Recording link", Cell.str "http"), ("Validation", Cell.str "Smooth")]

/-- A cleaned-shape row with an agent and a present date of sale. -/
def saleRow : Row :=
  [("Quality Agent Name", Cell.str "Agent A"), ("Date of Sale", Cell.date 3 0)]

/-! A model of IEEE-754 binary64 (float64) rounding.  The program's
duration columns are pandas float64 series, so its sums are subject to
round-to-nearest-even double rounding; the cells of the tables above
store the exact rational value of each double (every binary64 number is
a rational), and the functions below model the rounding that pandas
arithmetic applies on top.  `fl` maps a rational to the value of the
nearest binary64 number (ties to even), by scaling into the significand
range `[2^52, 2^53)` with power-of-two factors and rounding there; it
covers the full normal/subnormal magnitude range (the factors reach
`2^2047`) and is exercised only far from overflow in this file. -/

unseal Rat.add Rat.sub Rat.mul Rat.inv

set_option maxRecDepth 2000

/-- The binary64 value nearest to 0.1: `3602879701896397 / 2^55`. -/
def d01 : ℚ := 3602879701896397 / 36028797018963968

/-- The binary64 value nearest to 0.2: `3602879701896397 / 2^54`. -/
def d02 : ℚ := 3602879701896397 / 18014398509481984

/-- The binary64 value nearest to 0.3: `5404319552844595 / 2^54`. -/
def d03 : ℚ := 5404319552844595 / 18014398509481984

lemma lookup_modify (r : Row) (c c' : String) (f : Cell → Cell) :
    List.lookup c' (r.modify c f) =
      if c' = c then (List.lookup c' r).map f else List.lookup c' r := by
  induction r with
  | nil => simp [Row.modify]
  | cons p r ih =>
    obtain ⟨k, v⟩ := p
    simp only [Row.modify, List.map_cons] at ih ⊢
    by_cases hkc : k = c
    · subst hkc
      by_cases hck : c' = k
      · subst hck
        simp [List.lookup_cons]
      · have hb : (c' == k) = false := by simp [hck]
        simp [List.lookup_cons, hb, hck] at ih ⊢
        exact ih
    · rw [if_neg hkc]
      by_cases hck : c' = k
      · subst hck
        have hcc : ¬ c' = c := fun h => hkc h
        simp [List.lookup_cons, hcc]
      · have hb : (c' == k) = false := by simp [hck]
        simp [List.lookup_cons, hb]
        exact ih

lemma get_modify_isSome (r : Row) (c : String) (f : Cell → Cell)
    (h : (List.lookup c r).isSome = true) :
    (r.modify c f).get c = f (r.get c) := by
  rcases ho : List.lookup c r with _ | v
  · rw [ho] at h; cases h
  · simp [Row.get, lookup_modify, ho]

lemma lookup_isSome_modify (r : Row) (c c' : String) (f : Cell → Cell) :
    (List.lookup c' (r.modify c f)).isSome = (List.lookup c' r).isSome := by
  rw [lookup_modify]
  by_cases h : c' = c <;> simp [h]

lemma getD_zero_mem {α : Type} (l : List α) (d : α) (h : 0 < l.length) :
    l.getD 0 d ∈ l := by
  cases l with
  | nil => cases h
  | cons a l => simp [List.getD]

/-! Inversion lemmas for the normalization stages. -/

lemma mapCol_ok {t : Table} {c : String} {f : Cell → Cell} {t' : Table}
    (h : t.mapCol c f = .ok t') :
    t.header.contains c = true ∧ t'.header = t.header ∧
    t'.rows = t.rows.map (fun r => Row.modify r c f) := by
  by_cases hc : t.header.contains c = true
  · simp only [Table.mapCol, hc, if_true, Except.ok.injEq] at h
    subst h
    exact ⟨hc, rfl, rfl⟩
  · simp only [Table.mapCol, hc, if_false, Bool.false_eq_true] at h
    cases h

lemma setGapCol_ok {t t' : Table} (h : setGapCol t = .ok t') :
    t.header.contains "Call duration" = true ∧
    t.header.contains "Work duration" = true ∧
    t'.header = t.header ++ ["Duration Difference"] ∧
    t'.rows = t.rows.map (fun r =>
      r ++ [("Duration Difference",
             cellSub (Row.get r "Call duration") (Row.get r "Work duration"))]) := by
  by_cases hc : t.header.contains "Call duration" = true
  · by_cases hw : t.header.contains "Work duration" = true
    · simp only [setGapCol, hc, hw, if_true, Except.ok.injEq] at h
      subst h
      exact ⟨hc, hw, rfl, rfl⟩
    · simp only [setGapCol, hc, hw, if_true, if_false, Bool.false_eq_true] at h
      cases h
  · simp only [setGapCol, hc, if_false, Bool.false_eq_true] at h
    cases h

lemma load_ok_inv {P : Parsers} {raw : Table} {pr : Table × Table}
    (hE : load_and_process_data P raw = .ok pr) :
    ∃ t1 t2 t3 : Table,
      (projectColumns raw).mapCol "Call duration" (coerceNum P) = .ok t1 ∧
      t1.mapCol "Work duration" (coerceNum P) = .ok t2 ∧
      setGapCol t2 = .ok t3 ∧
      pr = (raw, coerceDateCols P t3) := by
  unfold load_and_process_data at hE
  split at hE
  · cases hE
  · rename_i t1 h1
    split at hE
    · cases hE
    · rename_i t2 h2
      split at hE
      · cases hE
      · rename_i t3 h3
        injection hE with hpr
        exact ⟨t1, t2, t3, h1, h2, h3, hpr.symm⟩

lemma isOk_iff_exists {pr : Except PdError (Table × Table)} :
    pr.isOk = true ↔ ∃ p, pr = .ok p := by
  cases pr <;> simp [Except.isOk, Except.toBool]

lemma cleanedOf_eq {P : Parsers} {raw : Table} {pr : Table × Table}
    (hE : load_and_process_data P raw = .ok pr) :
    cleanedOf P raw = pr.2 := by
  unfold cleanedOf
  rw [hE]

/-! Facts about the individual coercion steps. -/

lemma dateStep_header (P : Parsers) (t : Table) (c : String) :
    (dateStep P t c).header = t.header := by
  unfold dateStep
  split <;> rfl

lemma dateStep_rows_map (P : Parsers) (t : Table) (c : String) :
    ∃ g : Row → Row, (dateStep P t c).rows = t.rows.map g := by
  unfold dateStep
  split
  · exact ⟨_, rfl⟩
  · exact ⟨id, (List.map_id t.rows).symm⟩

lemma foldl_dateStep_rows_map (P : Parsers) (cs : List String) :
    ∀ t : Table, ∃ g : Row → Row,
      (List.foldl (dateStep P) t cs).rows = t.rows.map g := by
  induction cs with
  | nil => exact fun t => ⟨id, (List.map_id t.rows).symm⟩
  | cons c cs ih =>
    intro t
    obtain ⟨g1, hg1⟩ := dateStep_rows_map P t c
    obtain ⟨g2, hg2⟩ := ih (dateStep P t c)
    refine ⟨fun r => g2 (g1 r), ?_⟩
    rw [List.foldl_cons, hg2, hg1, List.map_map]
    rfl

/-- Counterexample to claim C1 as stated: on a parseable sheet that
lacks the recognized duration columns, `load_and_process_data` raises a
KeyError (line 29 reads `df_cleaned["Call duration"]` unconditionally)
instead of completing on the columns that are present. -/
theorem missing_duration_column_raises :
    (load_and_process_data testParsers rawNoDurations).isOk = false := by
  decide

/-- Claim C1 (amended): normalization tolerates absent recognized
date columns, but requires both duration columns; whenever the raw
header contains 'Call duration' and 'Work duration', the pipeline
raises no error, regardless of which other recognized columns are
absent. -/
theorem normalization_ok_of_duration_columns (P : Parsers) (raw : Table)
    (h1 : raw.header.contains "Call duration" = true)
    (h2 : raw.header.contains "Work duration" = true) :
    (load_and_process_data P raw).isOk = true := by
  have hmemC : "Call duration" ∈ COLUMNS_TO_KEEP := by decide
  have hmemW : "Work duration" ∈ COLUMNS_TO_KEEP := by decide
  have h1m : "Call duration" ∈ raw.header := by simpa using h1
  have h2m : "Work duration" ∈ raw.header := by simpa using h2
  have hkC : "Call duration" ∈ (projectColumns raw).header := by
    simp only [projectColumns]
    exact List.mem_filter.mpr ⟨hmemC, h1⟩
  have hkW : "Work duration" ∈ (projectColumns raw).header := by
    simp only [projectColumns]
    exact List.mem_filter.mpr ⟨hmemW, h2⟩
  unfold load_and_process_data
  rcases hm1 : (projectColumns raw).mapCol "Call duration" (coerceNum P) with e | t1
  · simp [Table.mapCol, hkC] at hm1
  · obtain ⟨_, hh1, _⟩ := mapCol_ok hm1
    rcases hm2 : t1.mapCol "Work duration" (coerceNum P) with e | t2
    · have hkW1 : "Work duration" ∈ t1.header := by rw [hh1]; exact hkW
      simp [Table.mapCol, hkW1] at hm2
    · obtain ⟨hcW, hh2, _⟩ := mapCol_ok hm2
      rcases hm3 : setGapCol t2 with e | t3
      · have hkC2 : "Call duration" ∈ t2.header := by
          rw [hh2, hh1]; exact hkC
        have hkW2 : "Work duration" ∈ t2.header := by
          rw [hh2, hh1]; exact hkW
        simp [setGapCol, hkC2, hkW2] at hm3
      · simp [hm1, hm2, hm3, Except.isOk, Except.toBool]

/-- Witness for the amended claim C1 at a concrete sheet that has only
the two duration columns. -/
theorem normalization_ok_of_duration_columns_witness :
    rawDurationsOnly.header.contains "Call duration" = true ∧
    rawDurationsOnly.header.contains "Work duration" = true ∧
    (load_and_process_data testParsers rawDurationsOnly).isOk = true :=
  ⟨by decide, by decide,
   normalization_ok_of_duration_columns testParsers rawDurationsOnly
     (by decide) (by decide)⟩

/-! Claim C5. -/

/-- Counterexample to claim C5 as stated: for a raw table without the
duration columns, normalization does not return a cleaned table at all
(the pipeline raises), so the row-count/row-order invariant does not
hold for every raw input regardless of which recognized columns are
present. -/
theorem row_count_not_preserved_without_durations :
    (load_and_process_data testParsers rawNoDurations).isOk = false ∧
    (cleanedOf testParsers rawNoDurations).rows.length ≠ rawNoDurations.rows.length :=
  ⟨by decide, by decide⟩

/-- Claim C5 (amended): whenever normalization succeeds (equivalently,
both duration columns are present), the cleaned table has exactly the
raw table's row count, and its rows are the image of the raw rows under
a single per-row transformation, in the same order. -/
theorem row_preservation (P : Parsers) (raw : Table)
    (h : (load_and_process_data P raw).isOk = true) :
    (cleanedOf P raw).rows.length = raw.rows.length ∧
    ∃ F : Row → Row, (cleanedOf P raw).rows = raw.rows.map F := by
  obtain ⟨pr, hE⟩ := isOk_iff_exists.mp h
  obtain ⟨t1, t2, t3, h1, h2, h3, hpr⟩ := load_ok_inv hE
  obtain ⟨hc1, hh1, hr1⟩ := mapCol_ok h1
  obtain ⟨hc2, hh2, hr2⟩ := mapCol_ok h2
  obtain ⟨hc3, hw3, hh3, hr3⟩ := setGapCol_ok h3
  obtain ⟨g, hg⟩ := foldl_dateStep_rows_map P date_cols t3
  have hex : ∃ F : Row → Row, (cleanedOf P raw).rows = raw.rows.map F := by
    rw [cleanedOf_eq hE, hpr]
    rw [show (coerceDateCols P t3).rows = t3.rows.map g from hg, hr3, hr2, hr1]
    simp only [projectColumns, List.map_map]
    exact ⟨_, rfl⟩
  obtain ⟨F, hF⟩ := hex
  exact ⟨by rw [hF, List.length_map], F, hF⟩

/-- Witness for the amended claim C5 at a concrete sheet. -/
theorem row_preservation_witness :
    (load_and_process_data testParsers rawQa).isOk = true ∧
    (cleanedOf testParsers rawQa).rows.length = rawQa.rows.length :=
  ⟨by with_unfolding_all decide,
   (row_preservation testParsers rawQa (by with_unfolding_all decide)).1⟩

/-! Claim C2. -/

/-- Counterexample to claim C2 as stated: the closing-status filter is
applied to the full cleaned table (`df_processed`), not to the
agent-scoped view, so a row whose QA agent name is absent does appear
in the closing-status-filtered result. -/
theorem closing_filter_includes_unassigned :
    (closingRows cleanedClosing ["Confirmed"]).length = 1 ∧
    isNullCell (Row.get ((closingRows cleanedClosing ["Confirmed"]).getD 0 [])
      "Quality Agent Name") = true := by
  exact ⟨by with_unfolding_all decide, by with_unfolding_all decide⟩

/-- Claim C2 (amended): the closing-status filter runs over the full
cleaned table; every resulting row passes the closing-status membership
test, rows without a QA agent name may be among them, and the plotting
copy relabels those agent names to 'Not Assigned' (so the plot rows
always carry a non-absent agent name). -/
theorem closing_filter_semantics (t : Table) (sel : List String)
    (hk : ∀ r ∈ t.rows, (List.lookup "Quality Agent Name" r).isSome = true) :
    (∀ r ∈ closingRows t sel, closingIsin (Row.get r "Closing Status") sel = true) ∧
    (∀ r ∈ plotRows t sel, isNullCell (Row.get r "Quality Agent Name") = false) := by
  constructor
  · intro r hr
    unfold closingRows df_closing_global at hr
    rcases hm : t.mapCol "Closing Status" fillUnknown with e | tg <;> rw [hm] at hr
    · simp [Except.toOption] at hr
    · simp only [Except.toOption, Option.getD] at hr
      exact (List.mem_filter.mp hr).2
  · intro r hr
    unfold plotRows at hr
    simp only [List.mem_map] at hr
    obtain ⟨r0, hr0, rfl⟩ := hr
    have h0 : (List.lookup "Quality Agent Name" r0).isSome = true := by
      unfold closingRows df_closing_global at hr0
      rcases hm : t.mapCol "Closing Status" fillUnknown with e | tg <;> rw [hm] at hr0
      · simp [Except.toOption] at hr0
      · simp only [Except.toOption, Option.getD] at hr0
        have hr1 := List.mem_of_mem_filter hr0
        obtain ⟨_, _, hrows⟩ := mapCol_ok hm
        rw [hrows] at hr1
        simp only [List.mem_map] at hr1
        obtain ⟨r1, hr1m, rfl⟩ := hr1
        rw [lookup_isSome_modify]
        exact hk r1 hr1m
    rw [get_modify_isSome _ _ _ h0]
    rcases hg : Row.get r0 "Quality Agent Name" with _ | s | q | ⟨d, tod⟩ <;> rfl

/-- Witness for the amended claim C2 on the concrete cleaned sheet with
an unassigned lead. -/
theorem closing_filter_semantics_witness :
    closingIsin (Row.get ((closingRows cleanedClosing ["Confirmed"]).getD 0 [])
      "Closing Status") ["Confirmed"] = true ∧
    isNullCell (Row.get ((plotRows cleanedClosing ["Confirmed"]).getD 0 [])
      "Quality Agent Name") = false := by
  constructor
  · exact (closing_filter_semantics cleanedClosing ["Confirmed"]
      (by with_unfolding_all decide)).1 _
      (getD_zero_mem _ _ (by with_unfolding_all decide))
  · exact (closing_filter_semantics cleanedClosing ["Confirmed"]
      (by with_unfolding_all decide)).2 _
      (getD_zero_mem _ _ (by with_unfolding_all decide))

/-! Claim C3. -/

/-- Counterexample to claim C3 as stated: with two agents of equal gap
sums, the order that lists the lexically larger agent first is also an
admissible result of the unstable descending sort of line 111, so the
deterministic lexical tie-break is not guaranteed by the code. -/
theorem tie_break_not_enforced :
    Qa_stats_result tieRows tieStatsBad ∧ ¬ tieBreakOK tieStatsBad := by
  with_unfolding_all decide

/-- Claim C3 (amended): any admissible result of the aggregation is a
permutation of the grouped per-agent statistics sorted by descending
gap sum; the gap-sum sequence is uniquely determined, but the relative
order of agents with equal gap sums is not specified. -/
theorem gap_order_determined (rows : List Row) (out1 out2 : List AgentStats)
    (h1 : Qa_stats_result rows out1) (h2 : Qa_stats_result rows out2) :
    out1.map AgentStats.total_efficiency_gap =
      out2.map AgentStats.total_efficiency_gap := by
  obtain ⟨p1, s1⟩ := h1
  obtain ⟨p2, s2⟩ := h2
  have hp : (out1.map AgentStats.total_efficiency_gap).Perm
      (out2.map AgentStats.total_efficiency_gap) :=
    (p1.trans p2.symm).map _
  have hs1 : List.Pairwise (fun a b : ℚ => b ≤ a)
      (out1.map AgentStats.total_efficiency_gap) :=
    List.Pairwise.map _ (fun _ _ hab => hab) s1
  have hs2 : List.Pairwise (fun a b : ℚ => b ≤ a)
      (out2.map AgentStats.total_efficiency_gap) :=
    List.Pairwise.map _ (fun _ _ hab => hab) s2
  haveI : IsAntisymm ℚ (fun a b : ℚ => b ≤ a) :=
    ⟨fun a b hab hba => le_antisymm hba hab⟩
  exact List.eq_of_perm_of_sorted hp hs1 hs2

/-- Witness for the amended claim C3 at the concrete tied sheet. -/
theorem gap_order_determined_witness :
    tieStatsGood.map AgentStats.total_efficiency_gap =
      tieStatsGood.map AgentStats.total_efficiency_gap :=
  gap_order_determined tieRows tieStatsGood tieStatsGood
    (by with_unfolding_all decide) (by with_unfolding_all decide)

/-! Claim C4. -/

/-- Counterexample to claim C4 as stated: a record whose recording link
is a whitespace-only string counts as missing a required field under
the classifier's own per-field test, yet the inclusion mask of line 277
uses only the null test, so the record is not in the problem set. -/
theorem whitespace_only_field_not_flagged :
    fieldMissingB (Row.get blankLinkRow "Recording link") = true ∧
    df_all_problems [blankLinkRow] = [] := by
  decide

/-- Claim C4 (amended): a record of the filtered view enters the
missing-data problem set iff at least one required field is the absent
sentinel (null); the empty/whitespace-string test only contributes to
the signatures of records already included.  Every included record has
at least one missing required field under the signature test, so a
record missing zero required fields never appears. -/
theorem problem_set_membership (rows : List Row) (r : Row) :
    (r ∈ df_all_problems rows ↔ r ∈ rows ∧ missing_mask r = true) ∧
    (r ∈ df_all_problems rows →
      REQUIRED_FIELDS.filter (fun f => fieldMissingB (Row.get r f)) ≠ []) := by
  constructor
  · exact List.mem_filter
  · intro hr
    have hm : missing_mask r = true := (List.mem_filter.mp hr).2
    rw [missing_mask, List.any_eq_true] at hm
    obtain ⟨f, hf, hnull⟩ := hm
    intro hnil
    have hfm : f ∈ REQUIRED_FIELDS.filter (fun f => fieldMissingB (Row.get r f)) := by
      rw [List.mem_filter]
      refine ⟨hf, ?_⟩
      rcases hcell : Row.get r f with _ | s | q | ⟨d, tod⟩ <;>
        rw [hcell] at hnull <;> first | rfl | cases hnull
    rw [hnil] at hfm
    cases hfm

/-- Witness for the amended claim C4 at a record with a null assign
date. -/
theorem problem_set_membership_witness :
    REQUIRED_FIELDS.filter (fun f => fieldMissingB (Row.get nullDateRow f)) ≠ [] :=
  (problem_set_membership [nullDateRow] nullDateRow).2 (by decide)

/-! Claim C6. -/

/-- Claim C7 (confirmed): a duration cell that is empty (the absent
sentinel) or an unparsable string coerces to exactly 0, and applying
the coercion to a present duration column never raises. -/
theorem numeric_default (P : Parsers) (c : Cell)
    (h : c = Cell.na ∨ ∃ s, c = Cell.str s ∧ P.parseNum s = none) :
    coerceNum P c = Cell.num 0 ∧
    ∀ t : Table, t.header.contains "Call duration" = true →
      (t.mapCol "Call duration" (coerceNum P)).isOk = true := by
  constructor
  · rcases h with rfl | ⟨s, rfl, hs⟩
    · rfl
    · simp [coerceNum, hs]
  · intro t ht
    have htm : "Call duration" ∈ t.header := by simpa using ht
    simp [Table.mapCol, htm, Except.isOk, Except.toBool]

/-- Witness for claim C7: an unparsable duration string coerces to 0
and the column-wide coercion of a concrete sheet succeeds. -/
theorem numeric_default_witness :
    coerceNum testParsers (Cell.str "n/a") = Cell.num 0 ∧
    (rawQa.mapCol "Call duration" (coerceNum testParsers)).isOk = true :=
  ⟨(numeric_default testParsers (Cell.str "n/a")
      (Or.inr ⟨"n/a", rfl, rfl⟩)).1,
   (numeric_default testParsers (Cell.str "n/a")
      (Or.inr ⟨"n/a", rfl, rfl⟩)).2 rawQa (by decide)⟩

/-! Claim C8. -/

/-- Claim C8 (confirmed): with an active date range, a row passes the
combined mask iff it passes the agent test and its date of sale is a
present (non-sentinel) date whose calendar day lies within the
inclusive bounds; rows with an absent date of sale always fail. -/
theorem date_range_membership (sel : List String) (d0 d1 : Int) (r : Row) :
    rowMask sel (some (d0, d1)) r = true ↔
      (agentIsin r sel = true ∧
        ∃ day tod, Row.get r "Date of Sale" = Cell.date day tod ∧
          d0 ≤ day ∧ day ≤ d1) := by
  simp only [rowMask]
  rcases hg : Row.get r "Date of Sale" with _ | s | q | ⟨day, tod⟩ <;>
    simp [dtGe, dtLe, hg, and_assoc]

/-- Witness for claim C8 at a concrete row and range. -/
theorem date_range_membership_witness :
    rowMask ["Agent A"] (some (1, 5)) saleRow = true :=
  (date_range_membership ["Agent A"] 1 5 saleRow).mpr
    ⟨by decide, 3, 0, by decide, by decide, by decide⟩

/-! Claim C9. -/

/-- Claim C9 (confirmed): filtering the agent-scoped view with an empty
selected-agents set yields zero rows, whether or not a date range is
active; an empty selection is never treated as selecting everything. -/
theorem empty_selection_strict (t : Table) (dr : Option (Int × Int)) :
    applyFilters (agentRows t) [] dr = [] := by
  unfold applyFilters
  rw [List.filter_eq_nil_iff]
  intro r _
  have hA : agentIsin r [] = false := by
    unfold agentIsin
    rcases hg : Row.get r "Quality Agent Name" with _ | s | q | ⟨d, tod⟩ <;>
      rfl
  cases dr with
  | none => simp [rowMask, hA]
  | some d => simp [rowMask, hA]

/-! Claim C10. -/

/-- Claim C10 (confirmed): the 'Total Leads' statistic equals the raw
sheet's row count and does not depend on the agent selection or the
date range; it is computed from the raw table before any filtering. -/
theorem total_leads_unaffected_by_filters (P : Parsers) (raw : Table)
    (sel sel2 : List String) (dr dr2 : Option (Int × Int)) :
    (globalStats raw (applyFilters (agentRows (cleanedOf P raw)) sel dr)).total_leads =
      raw.rows.length ∧
    (globalStats raw (applyFilters (agentRows (cleanedOf P raw)) sel dr)).total_leads =
      (globalStats raw
        (applyFilters (agentRows (cleanedOf P raw)) sel2 dr2)).total_leads :=
  ⟨rfl, rfl⟩

end Quality
